import Mathlib

/-!
Verification development for the geodata transformation pipeline and its
bounded-result cache (source files `response_cache.py` and
`spatial_processing.py`).

Modelling conventions:
* Machine time (`time.time()`, `datetime.now()`) is modelled by explicit
  natural-number instants passed to each function, one per clock read, in the
  order the source reads the clock.
* The filesystem cache directory is modelled as association lists keyed by
  `cache_id`; each stored file carries its modification time.
* External library calls that are not part of this repository
  (`gpd.read_file`, `gdf.to_crs`, serialization drivers, `md5`) are modelled
  as opaque but executable markers: `read_file`'s output is an explicit
  `parsed` argument, `to_crs` wraps every geometry in a `Geom.proj` marker,
  and each output serializer is a `PayloadRepr` constructor remembering which
  driver ran.
* Python float expressions `int(i * step)` with `step = total / max_points`
  are modelled by exact rational flooring, `i * total / max_points` in `Nat`.
* Python truthiness of an optional string (`if target_crs:`) is
  `pyTruthy`: the value is present and non-empty.
-/

/-! ## A minimal model of Python JSON values and `json.dumps` -/

inductive Json where
  | null : Json
  | bool (b : Bool) : Json
  | num (n : Int) : Json
  | str (s : String) : Json
  | arr (xs : List Json) : Json
  | obj (kvs : List (String × Json)) : Json

/-- One hexadecimal digit, lowercase, as produced by Python's `json` module. -/
def hexDigit (n : Nat) : Char :=
  if n < 10 then Char.ofNat (48 + n) else Char.ofNat (87 + n)

/-- Four-digit lowercase hex rendering used in `\uXXXX` escapes. -/
def hex4 (n : Nat) : String :=
  String.mk [hexDigit (n / 4096 % 16), hexDigit (n / 256 % 16),
             hexDigit (n / 16 % 16), hexDigit (n % 16)]

/-- Escaping of a single character following `json.dumps` with its default
`ensure_ascii=True` (code points above 0xFFFF would use surrogate pairs in
Python; the claims only evaluate this on ASCII data). -/
def escapeChar (c : Char) : String :=
  if c = '"' then "\\\""
  else if c = '\\' then "\\\\"
  else if c = '\n' then "\\n"
  else if c = '\t' then "\\t"
  else if c = '\r' then "\\r"
  else if c.toNat = 8 then "\\b"
  else if c.toNat = 12 then "\\f"
  else if c.toNat < 32 ∨ 127 < c.toNat then "\\u" ++ hex4 c.toNat
  else String.singleton c

def escapeString (s : String) : String :=
  String.join (s.toList.map escapeChar)

mutual
/-- `json.dumps(data)` with default arguments: separators `", "` and `": "`,
object keys in insertion order.  Numbers are modelled as integers. -/
def jsonDumps : Json → String
  | Json.null => "null"
  | Json.bool b => if b then "true" else "false"
  | Json.num n => toString n
  | Json.str s => "\"" ++ escapeString s ++ "\""
  | Json.arr xs => "[" ++ String.intercalate ", " (jsonDumpsList xs) ++ "]"
  | Json.obj kvs => "\x7b" ++ String.intercalate ", " (jsonDumpsPairs kvs) ++ "\x7d"

def jsonDumpsList : List Json → List String
  | [] => []
  | x :: xs => jsonDumps x :: jsonDumpsList xs

def jsonDumpsPairs : List (String × Json) → List String
  | [] => []
  | (k, v) :: xs => ("\"" ++ escapeString k ++ "\": " ++ jsonDumps v) :: jsonDumpsPairs xs
end

/-- Python `len` on a JSON value: defined on lists, strings and dicts,
a `TypeError` (modelled as `none`) on anything else. -/
def pyLen : Json → Option Nat
  | Json.arr xs => some xs.length
  | Json.str s => some s.length
  | Json.obj kvs => some kvs.length
  | _ => none

/-! ## `response_cache.should_cache_response` -/

/-- `len(data.get("features", []))` when the response is a dict, as computed
by `should_cache_response`; for a non-dict the branch is skipped, which the
code treats like a zero count.  `none` models the `TypeError` Python raises
when the `features` value is unsized. -/
def wfsFeaturesLen (data : Json) : Option Nat :=
  match data with
  | Json.obj kvs => pyLen ((List.lookup "features" kvs).getD (Json.arr []))
  | _ => some 0

/-- `should_cache_response(data, tool_name)` from `response_cache.py`.
Returns `none` when the Python code would raise (a `len` call on an unsized
`features` value), otherwise `some` of the boolean the code returns. -/
def should_cache_response (data : Json) (tool_name : String) : Option Bool :=
  if tool_name ∈ ["calculate_route", "calculate_isochrone", "get_elevation_line"] then
    some true
  else
    let wfsCheck : Option Bool :=
      if tool_name = "get_wfs_features" then
        (wfsFeaturesLen data).map (fun n => decide (50 < n))
      else some false
    match wfsCheck with
    | none => none
    | some true => some true
    | some false => some (decide (10 * 1024 < (jsonDumps data).length))

/-- The claim's own reading of "the result is a feature collection with more
than 50 features" (formalised from the spec's words, for comparison with the
source's tool-gated check): a dict whose `type` is `"FeatureCollection"` and
whose `features` is a list of more than 50 elements. -/
def isFeatureCollectionOver50 (data : Json) : Bool :=
  match data with
  | Json.obj kvs =>
      (match List.lookup "type" kvs with
       | some (Json.str s) => s = "FeatureCollection"
       | _ => false)
      &&
      (match List.lookup "features" kvs with
       | some (Json.arr xs) => decide (50 < xs.length)
       | _ => false)
  | _ => false

/-- The decision rule exactly as claim C7 states it (no tool gating on the
feature-collection test). -/
def shouldCacheClaimC7 (data : Json) (tool_name : String) : Prop :=
  tool_name ∈ ["calculate_route", "calculate_isochrone", "get_elevation_line"]
  ∨ isFeatureCollectionOver50 data = true
  ∨ 10 * 1024 < (jsonDumps data).length

/-! ## The cache store (`response_cache.py`)

The cache directory holds, per entry, a data file `{cache_id}.json` and a
metadata file `{cache_id}_meta.json`.  The stored payload type is a type
parameter `β`.  Fields of the metadata record that no claim inspects
(`params`, `file_path`, `file_size_bytes`, `summary`) are not modelled; the
summary is a derived digest, never the payload itself. -/

def CACHE_TTL_SECONDS : Nat := 24 * 3600

structure CacheMeta where
  cache_id : String
  tool_name : String
  created_at : Nat
  expires_at : Nat
deriving DecidableEq, Repr

/-- A file on disk: its modification time and its content. -/
structure CFile (β : Type) where
  mtime : Nat
  content : β
deriving DecidableEq, Repr

structure CacheState (β : Type) where
  dataFiles : List (String × CFile β)
  metaFiles : List (String × CFile CacheMeta)
deriving DecidableEq, Repr

/-- Write (or overwrite) a file in an association-list directory. -/
def setFile {β : Type} (fs : List (String × CFile β)) (k : String) (v : CFile β) :
    List (String × CFile β) :=
  (k, v) :: fs.filter (fun p => ¬ p.1 = k)

/-- Delete a file if present. -/
def removeFile {β : Type} (fs : List (String × CFile β)) (k : String) :
    List (String × CFile β) :=
  fs.filter (fun p => ¬ p.1 = k)

/-- `_clean_old_cache_files()`: delete every cache file whose modification
time is older than `now - CACHE_TTL_SECONDS` (deletion errors swallowed). -/
def cleanOldCacheFiles {β : Type} (st : CacheState β) (now : Nat) : CacheState β :=
  { dataFiles := st.dataFiles.filter (fun p => ¬ p.2.mtime < now - CACHE_TTL_SECONDS),
    metaFiles := st.metaFiles.filter (fun p => ¬ p.2.mtime < now - CACHE_TTL_SECONDS) }

/-- `_generate_cache_id(tool_name, params)`: the md5 hash of the parameters is
external to the repository and passed in as the already-computed 8-character
`paramsHash`. -/
def generateCacheId (tool_name : String) (timestamp : Nat) (paramsHash : String) : String :=
  tool_name ++ "_" ++ toString timestamp ++ "_" ++ paramsHash

/-- The lightweight record `cache_response` returns to the caller (the
`file_path`, `file_size_kb`, `summary` and `usage` fields carry no claim
content and are omitted). -/
structure PutResult where
  cached : Bool
  cache_id : String
  expires_at : Nat
deriving DecidableEq, Repr

/-- `cache_response(data, tool_name, params)`.  Clock reads, in source order:
`tSweep` (`time.time()` inside the sweep), `tIdGen` (`time.time()` inside
`_generate_cache_id`), `tDataWrite` (mtime of the written data file),
`tCreated` (`datetime.now()` for `created_at`), `tExpires` (the second
`datetime.now()`, for `expires_at`), `tMetaWrite` (mtime of the metadata
file). -/
def cache_response {β : Type} (st : CacheState β) (data : β) (tool_name : String)
    (paramsHash : String) (tSweep tIdGen tDataWrite tCreated tExpires tMetaWrite : Nat) :
    CacheState β × PutResult :=
  let st1 := cleanOldCacheFiles st tSweep
  let cid := generateCacheId tool_name tIdGen paramsHash
  let st2 : CacheState β :=
    { st1 with dataFiles := setFile st1.dataFiles cid ⟨tDataWrite, data⟩ }
  let meta : CacheMeta :=
    { cache_id := cid, tool_name := tool_name,
      created_at := tCreated, expires_at := tExpires + CACHE_TTL_SECONDS }
  let st3 : CacheState β :=
    { st2 with metaFiles := setFile st2.metaFiles cid ⟨tMetaWrite, meta⟩ }
  (st3, { cached := true, cache_id := cid, expires_at := meta.expires_at })

/-- What `get_cached_data` returns when it finds a live entry: a copy of the
stored metadata, plus the deprecation warning added when `include_full_data`
was requested.  By construction it has no field for the stored payload. -/
structure GetResult where
  meta : CacheMeta
  warning : Bool
deriving DecidableEq, Repr

/-- `get_cached_data(cache_id, include_full_data)` at clock instant `now`.
Returns the inline result and the state of the cache directory afterwards.
On an expired entry the code runs `try: data.unlink(); meta.unlink()
except: pass`: if the data file is missing, its `unlink` raises and the
metadata `unlink` is skipped. -/
def get_cached_data {β : Type} (st : CacheState β) (now : Nat) (cache_id : String)
    (include_full_data : Bool) : Option GetResult × CacheState β :=
  match List.lookup cache_id st.metaFiles with
  | none => (none, st)
  | some mf =>
    if mf.content.expires_at < now then
      if (List.lookup cache_id st.dataFiles).isSome then
        (none, { dataFiles := removeFile st.dataFiles cache_id,
                 metaFiles := removeFile st.metaFiles cache_id })
      else
        (none, st)
    else
      (some { meta := mf.content, warning := include_full_data }, st)

/-- The record `export_cached_data` returns (`file_size_bytes` and the
human-readable message are omitted; path expansion/resolution is modelled as
the identity). -/
structure ExportResult where
  success : Bool
  cache_id : String
  error : Option String
  output_path : Option String
deriving DecidableEq, Repr

/-- `export_cached_data(cache_id, output_path)`.  The destination filesystem
is an association list from paths to contents; parent-directory creation
(`mkdir(parents=True, exist_ok=True)`) always succeeds and is not tracked.
Note the source checks only that the data file exists — it never reads the
metadata file or the clock. -/
def export_cached_data {β : Type} (st : CacheState β) (cache_id : String)
    (output_path : String) (destFs : List (String × β)) :
    ExportResult × List (String × β) :=
  match List.lookup cache_id st.dataFiles with
  | none =>
      ({ success := false, cache_id := cache_id,
         error := some "Cache not found or expired", output_path := none }, destFs)
  | some df =>
      ({ success := true, cache_id := cache_id,
         error := none, output_path := some output_path },
       (output_path, df.content) :: destFs.filter (fun p => ¬ p.1 = output_path))

/-! ## The geometry sampler (`extract_geometry_coordinates`) -/

/-- The stored geometry of a cached result, with coordinates of an arbitrary
type `α` (a coordinate is an opaque pair of floats in the source). -/
inductive Geometry (α : Type) where
  | lineString (coords : List α) : Geometry α
  | polygon (rings : List (List α)) : Geometry α
  | multiPolygon (polys : List (List (List α))) : Geometry α
  | other : Geometry α
deriving DecidableEq, Repr

/-- The `coordinates` field of the sampler's result: a flat list for
`LineString`, a list of rings for `Polygon`. -/
inductive CoordsOut (α : Type) where
  | line (coords : List α) : CoordsOut α
  | rings (rs : List (List α)) : CoordsOut α
deriving DecidableEq, Repr

/-- Result of `extract_geometry_coordinates` (the `cache_id`, `tool_name`,
`bbox` and textual message fields carry no claim content and are omitted;
the optional `sampling_ratio` text likewise). -/
structure ExtractResult (α : Type) where
  geometry_type : Option String
  total_points : Option Nat
  coordinates : Option (CoordsOut α)
  sampled : Option Bool
  polygons_count : Option Nat
deriving DecidableEq, Repr

/-- The LineString index sequence
`[0] + [int(i * step) for i in range(1, max_points - 1)] + [total_points - 1]`
with `step = total_points / max_points`; `int(i * step)` is exact rational
flooring, `i * total / maxPoints` in `Nat`. -/
def sampleIndicesLine (total maxPoints : Nat) : List Nat :=
  [0] ++ (List.range' 1 (maxPoints - 2)).map (fun i => i * total / maxPoints)
      ++ [total - 1]

/-- The Polygon outer-ring index sequence
`[int(i * step) for i in range(max_points)]`. -/
def sampleIndicesRing (total maxPoints : Nat) : List Nat :=
  (List.range maxPoints).map (fun i => i * total / maxPoints)

/-- `extract_geometry_coordinates`, applied to the `geometry` field of the
stored result (`none` when the stored result has no geometry, making the
function return `None`). -/
def extract_geometry_coordinates {α : Type} [Inhabited α]
    (geometry : Option (Geometry α)) (maxPoints : Nat) : Option (ExtractResult α) :=
  match geometry with
  | none => none
  | some g =>
    match g with
    | Geometry.lineString coords =>
      let total := coords.length
      if total ≤ maxPoints then
        some { geometry_type := some "LineString", total_points := some total,
               coordinates := some (CoordsOut.line coords), sampled := some false,
               polygons_count := none }
      else
        some { geometry_type := some "LineString", total_points := some total,
               coordinates := some (CoordsOut.line
                 ((sampleIndicesLine total maxPoints).map (fun i => coords.getD i default))),
               sampled := some true, polygons_count := none }
    | Geometry.polygon rings =>
      match rings with
      | [] =>
        some { geometry_type := none, total_points := none, coordinates := none,
               sampled := none, polygons_count := none }
      | ring :: _ =>
        let total := ring.length
        if total ≤ maxPoints then
          some { geometry_type := some "Polygon", total_points := some total,
                 coordinates := some (CoordsOut.rings [ring]), sampled := some false,
                 polygons_count := none }
        else
          some { geometry_type := some "Polygon", total_points := some total,
                 coordinates := some (CoordsOut.rings
                   [(sampleIndicesRing total maxPoints).map (fun i => ring.getD i default)]),
                 sampled := some true, polygons_count := none }
    | Geometry.multiPolygon polys =>
      some { geometry_type := some "MultiPolygon",
             total_points := some ((polys.map (fun poly => (poly.map List.length).sum)).sum),
             coordinates := none, sampled := none,
             polygons_count := some polys.length }
    | Geometry.other =>
      some { geometry_type := none, total_points := none, coordinates := none,
             sampled := none, polygons_count := none }

/-- The outer-ring coordinate list the sampler returns for a Polygon
(empty list when the result has no ring coordinates). -/
def polygonSampleOuter (ring : List Nat) (maxPoints : Nat) : List Nat :=
  match extract_geometry_coordinates (some (Geometry.polygon [ring])) maxPoints with
  | some r =>
    match r.coordinates with
    | some (CoordsOut.rings (rs :: _)) => rs
    | _ => []
  | none => []

/-! ## Spatial processing (`spatial_processing.py`)

`gpd.read_file` and the CRS/format drivers are external libraries: the parse
result of `read_file` is passed in explicitly as `parsed`, reprojection wraps
every geometry in a `Geom.proj` marker, and each output driver is a
`PayloadRepr` constructor. -/

/-- A geometry value: either an original geometry from the parsed input, or
the image of a geometry under the external reprojection kernel. -/
inductive Geom where
  | base (id : Nat) : Geom
  | proj (crs : String) (g : Geom) : Geom
deriving DecidableEq, Repr

structure GRow where
  geometry : Option Geom
deriving DecidableEq, Repr

/-- The in-memory geometry collection (a `GeoDataFrame`): ordered rows plus a
nullable CRS.  Non-geometry attributes carry no claim content and are not
modelled.  CRS equality is modelled as equality of canonical CRS strings. -/
structure GeoDataFrame where
  rows : List GRow
  crs : Option String
deriving DecidableEq, Repr

/-- `gdf.to_crs(c)`: every geometry is reprojected by the external kernel and
the collection's CRS becomes `c`. -/
def toCrs (gdf : GeoDataFrame) (c : String) : GeoDataFrame :=
  { rows := gdf.rows.map (fun r => { geometry := r.geometry.map (Geom.proj c) }),
    crs := some c }

/-- Python truthiness of an optional string (`if s:`). -/
def pyTruthy (s : Option String) : Bool :=
  match s with
  | none => false
  | some v => ¬ v = ""

/-- The distinct `GeoProcessingError` raise sites of `spatial_processing.py`
(spec taxonomy: `unsupportedFormat` and `noData` are `UnsupportedFormat` /
`MissingParameter` style misuse; `emptyFile`, `allNullGeometries` and
`emptyResult` are all `EmptyResult`; `missingTargetCrs` is
`MissingParameter`; `incompatibleCrs` is `IncompatibleCRS`). -/
inductive GeoErr where
  | unsupportedFormat : GeoErr
  | noData : GeoErr
  | emptyFile : GeoErr
  | allNullGeometries : GeoErr
  | emptyResult : GeoErr
  | missingTargetCrs : GeoErr
  | incompatibleCrs : GeoErr
deriving DecidableEq, Repr

/-- Which error constructors the spec's `EmptyResult` kind covers. -/
def GeoErr.isEmptyKind : GeoErr → Bool
  | GeoErr.emptyFile => true
  | GeoErr.allNullGeometries => true
  | GeoErr.emptyResult => true
  | _ => false

def SUPPORTED_FORMATS : List String := ["geojson", "json", "kml", "gpkg", "shapefile"]

/-- Python `str.lower()` (character-wise; the format strings are ASCII). -/
def pyLower (s : String) : String := String.mk (s.toList.map Char.toLower)

/-- `normalize_format(fmt)`. -/
def normalize_format (fmt : String) : Except GeoErr String :=
  if fmt = "" then Except.error GeoErr.unsupportedFormat
  else
    let f := pyLower fmt
    let f := if f = "json" then "geojson" else f
    if f ∈ SUPPORTED_FORMATS then Except.ok f else Except.error GeoErr.unsupportedFormat

/-- `load_geodata(data, input_format, source_crs)`.  The staging to a
temporary file and `gpd.read_file` are external; `parsed` is the collection
`read_file` produced for `data`. -/
def load_geodata (data : Option String) (input_format : String)
    (parsed : GeoDataFrame) (source_crs : Option String) : Except GeoErr GeoDataFrame :=
  match normalize_format input_format with
  | Except.error e => Except.error e
  | Except.ok _ =>
    if data = none then Except.error GeoErr.noData
    else if parsed.rows = [] then Except.error GeoErr.emptyFile
    else
      let g : GeoDataFrame :=
        { parsed with rows := parsed.rows.filter (fun r => r.geometry.isSome) }
      if g.rows = [] then Except.error GeoErr.allNullGeometries
      else if pyTruthy source_crs then Except.ok { g with crs := source_crs }
      else Except.ok g

/-- Marker for which external output driver produced the payload. -/
inductive PayloadRepr where
  | geojsonOf (g : GeoDataFrame) : PayloadRepr
  | kmlOf (g : GeoDataFrame) : PayloadRepr
  | gpkgOf (g : GeoDataFrame) : PayloadRepr
  | shapefileOf (g : GeoDataFrame) : PayloadRepr
deriving DecidableEq, Repr

/-- The envelope `dump_geodata` returns. -/
structure Envelope where
  format : String
  encoding : String
  crs : Option String
  data : PayloadRepr
deriving DecidableEq, Repr

/-- `dump_geodata(gdf, output_format)`. -/
def dump_geodata (gdf : GeoDataFrame) (output_format : Option String) :
    Except GeoErr Envelope :=
  let fmtArg :=
    match output_format with
    | some s => if s = "" then "geojson" else s
    | none => "geojson"
  match normalize_format fmtArg with
  | Except.error e => Except.error e
  | Except.ok fmt =>
    let g : GeoDataFrame :=
      { gdf with rows := gdf.rows.filter (fun r => r.geometry.isSome) }
    if g.rows = [] then Except.error GeoErr.emptyResult
    else if fmt = "geojson" then
      Except.ok { format := "geojson", encoding := "utf-8", crs := g.crs,
                  data := PayloadRepr.geojsonOf g }
    else if fmt = "kml" then
      Except.ok { format := "kml", encoding := "utf-8", crs := g.crs,
                  data := PayloadRepr.kmlOf g }
    else if fmt = "gpkg" then
      Except.ok { format := "gpkg", encoding := "base64", crs := g.crs,
                  data := PayloadRepr.gpkgOf g }
    else if fmt = "shapefile" then
      Except.ok { format := "shapefile", encoding := "base64", crs := g.crs,
                  data := PayloadRepr.shapefileOf g }
    else Except.error GeoErr.unsupportedFormat

/-- `ensure_same_crs(gdf_a, gdf_b, target_crs)`. -/
def ensure_same_crs (gdf_a gdf_b : GeoDataFrame) (target_crs : Option String) :
    Except GeoErr (GeoDataFrame × GeoDataFrame) :=
  if pyTruthy target_crs then
    Except.ok (toCrs gdf_a (target_crs.getD ""), toCrs gdf_b (target_crs.getD ""))
  else
    match gdf_a.crs, gdf_b.crs with
    | some ca, some cb =>
      if ca = cb then Except.ok (gdf_a, gdf_b)
      else Except.ok (gdf_a, toCrs gdf_b ca)
    | _, _ => Except.error GeoErr.incompatibleCrs

/-- `reproject_geodata(data, input_format, target_crs, source_crs,
output_format)`; note the source loads the input before validating
`target_crs`. -/
def reproject_geodata (data : Option String) (input_format : String)
    (parsed : GeoDataFrame) (target_crs : Option String) (source_crs : Option String)
    (output_format : Option String) : Except GeoErr Envelope :=
  match load_geodata data input_format parsed source_crs with
  | Except.error e => Except.error e
  | Except.ok gdf =>
    if ¬ pyTruthy target_crs then Except.error GeoErr.missingTargetCrs
    else dump_geodata (toCrs gdf (target_crs.getD "")) output_format

/-! ## Concrete instances used by counterexamples and witnesses -/

/-- JSON value of claim C7's counterexample: a genuine feature collection of
51 empty features, serialized well under 10 KiB. -/
def c7Data : Json :=
  Json.obj [("type", Json.str "FeatureCollection"),
            ("features", Json.arr (List.replicate 51 (Json.obj [])))]

def emptyCacheState : CacheState Unit := { dataFiles := [], metaFiles := [] }

/-- Cache state of claim C3's counterexample: one complete entry whose
metadata expired at instant 10 but whose files are still on disk. -/
def c3State : CacheState Unit :=
  { dataFiles := [("id1", ⟨0, ()⟩)],
    metaFiles := [("id1", ⟨0, { cache_id := "id1", tool_name := "t",
                                created_at := 0, expires_at := 10 }⟩)] }

/-- Cache state of claim C6's counterexample: an expired metadata file whose
data file is already gone. -/
def c6State : CacheState Unit :=
  { dataFiles := [],
    metaFiles := [("x", ⟨0, { cache_id := "x", tool_name := "t",
                              created_at := 0, expires_at := 10 }⟩)] }

/-- A one-row collection read by the external parser, used by witnesses. -/
def parsedOne : GeoDataFrame :=
  { rows := [{ geometry := some (Geom.base 0) }], crs := some "EPSG:4326" }

/-- An empty parse result (the input file contains no entity). -/
def parsedEmpty : GeoDataFrame := { rows := [], crs := none }

deriving instance DecidableEq for Except

/-- Whether a cache entry's metadata exists and is not yet expired at `now`
(the "exists and is not expired" notion used by the claims about the cache). -/
def metaLiveAt {β : Type} (st : CacheState β) (now : Nat) (cid : String) : Bool :=
  match List.lookup cid st.metaFiles with
  | some mf => decide (now ≤ mf.content.expires_at)
  | none => false

/-! ## Helper lemmas -/

theorem lookup_setFile_self {β : Type} (fs : List (String × CFile β)) (k : String)
    (v : CFile β) : List.lookup k (setFile fs k v) = some v := by
  simp [setFile, List.lookup]

theorem pyTruthy_none : pyTruthy none = false := rfl

theorem pyTruthy_some_ne (s : String) (h : ¬ s = "") : pyTruthy (some s) = true := by
  simp [pyTruthy, h]

/-! ## C2: the CRS reconciliation decision rule -/

/-- C2 (confirmed): `ensure_same_crs` follows exactly the claimed decision
rule: a (truthy) `target_crs` reprojects both inputs to it; otherwise two
known equal CRS return both unchanged; two known unequal CRS reproject `b` to
`a`'s CRS and leave `a` unchanged; any unknown CRS fails with
`IncompatibleCRS`. -/
theorem C2_ensure_same_crs_rule (a b : GeoDataFrame) (target : Option String) :
    (∀ t, target = some t → ¬ t = "" →
        ensure_same_crs a b target = Except.ok (toCrs a t, toCrs b t)) ∧
    (pyTruthy target = false → ∀ c, a.crs = some c → b.crs = some c →
        ensure_same_crs a b target = Except.ok (a, b)) ∧
    (pyTruthy target = false → ∀ ca cb, a.crs = some ca → b.crs = some cb → ¬ ca = cb →
        ensure_same_crs a b target = Except.ok (a, toCrs b ca)) ∧
    (pyTruthy target = false → (a.crs = none ∨ b.crs = none) →
        ensure_same_crs a b target = Except.error GeoErr.incompatibleCrs) := by
  refine ⟨?_, ?_, ?_, ?_⟩
  · intro t ht hne
    subst ht
    simp [ensure_same_crs, pyTruthy, hne]
  · intro hfalse c hca hcb
    simp [ensure_same_crs, hfalse, hca, hcb]
  · intro hfalse ca cb hca hcb hne
    simp [ensure_same_crs, hfalse, hca, hcb, hne]
  · intro hfalse hnone
    rcases hnone with h | h
    · cases hb : b.crs <;> simp [ensure_same_crs, hfalse, h, hb]
    · cases ha : a.crs <;> simp [ensure_same_crs, hfalse, h, ha]

/-- Witness for C2 at a concrete pair with equal known CRS. -/
theorem C2_witness :
    ensure_same_crs parsedOne parsedOne none = Except.ok (parsedOne, parsedOne) :=
  (C2_ensure_same_crs_rule parsedOne parsedOne none).2.1 rfl "EPSG:4326" rfl rfl

/-! ## C3: export of a cached entry -/

/-- C3 counterexample: at the concrete state `c3State` (entry present on
disk, metadata expired at instant 10) and clock instant 20, the claim's rule
"success iff the entry exists and is not expired" is false: the export
succeeds even though the entry is expired, because `export_cached_data` never
consults the metadata or the clock. -/
theorem C3_counterexample :
    ¬ ((export_cached_data c3State "id1" "/out" ([] : List (String × Unit))).1.success =
        ((List.lookup "id1" c3State.dataFiles).isSome && metaLiveAt c3State 20 "id1")) := by
  decide

/-- C3 (amended): `export_cached_data` reports success iff the stored data
file exists — expiry is never checked; on a missing file it fails with the
"Cache not found or expired" error and writes nothing to the destination; on
a present file it copies the stored content to the destination path. -/
theorem C3_export_rule {β : Type} (st : CacheState β) (cid outPath : String)
    (destFs : List (String × β)) :
    ((export_cached_data st cid outPath destFs).1.success =
        (List.lookup cid st.dataFiles).isSome) ∧
    (List.lookup cid st.dataFiles = none →
        (export_cached_data st cid outPath destFs).1.error =
            some "Cache not found or expired" ∧
        (export_cached_data st cid outPath destFs).2 = destFs) ∧
    (∀ df, List.lookup cid st.dataFiles = some df →
        (export_cached_data st cid outPath destFs).1.output_path = some outPath ∧
        (export_cached_data st cid outPath destFs).2 =
          (outPath, df.content) :: destFs.filter (fun p => ¬ p.1 = outPath)) := by
  rcases h : List.lookup cid st.dataFiles with _ | df <;>
    simp [export_cached_data, h]

/-- Witness for C3's amended rule: exporting the present entry of `c3State`
writes the stored content at the requested path. -/
theorem C3_witness :
    (export_cached_data c3State "id1" "/out2" ([] : List (String × Unit))).1.output_path =
      some "/out2" :=
  ((C3_export_rule c3State "id1" "/out2" []).2.2 ⟨0, ()⟩ (by decide)).1

/-! ## C4: parameter validation order in `reproject_geodata` -/

/-- C4 counterexample: with an input whose parse is empty and `target_crs`
absent, the call fails with the empty-input load error, not with the
missing-parameter error — the input is decoded before `target_crs` is
validated. -/
theorem C4_counterexample :
    reproject_geodata (some "x") "geojson" parsedEmpty none none none =
        Except.error GeoErr.emptyFile ∧
    ¬ GeoErr.emptyFile = GeoErr.missingTargetCrs := by
  constructor
  · decide
  · decide

/-- C4 (amended): when `target_crs` is absent (not truthy), the result is the
missing-parameter error only if loading the input succeeded; a load failure
is reported instead, because validation happens after `load_geodata`. -/
theorem C4_reproject_validates_after_load (data : Option String) (input_format : String)
    (parsed : GeoDataFrame) (target_crs source_crs output_format : Option String)
    (h : pyTruthy target_crs = false) :
    reproject_geodata data input_format parsed target_crs source_crs output_format =
      match load_geodata data input_format parsed source_crs with
      | Except.ok _ => Except.error GeoErr.missingTargetCrs
      | Except.error e => Except.error e := by
  unfold reproject_geodata
  cases hl : load_geodata data input_format parsed source_crs with
  | error e => rfl
  | ok g => simp [h]

/-- Witness for C4's amended rule: a loadable input with absent `target_crs`
does fail with the missing-parameter error. -/
theorem C4_witness :
    reproject_geodata (some "d") "geojson" parsedOne none none none =
        Except.error GeoErr.missingTargetCrs := by
  rw [C4_reproject_validates_after_load (some "d") "geojson" parsedOne none none none rfl]
  decide

/-! ## C8: encoding/format invariant of `dump_geodata` envelopes -/

/-- C8 (confirmed): every envelope `dump_geodata` returns has `base64`
encoding iff its format is binary (`gpkg` or `shapefile`), and `utf-8`
encoding iff its format is textual (`geojson` or `kml`). -/
theorem C8_dump_encoding_invariant (gdf : GeoDataFrame) (ofmt : Option String)
    (env : Envelope) (h : dump_geodata gdf ofmt = Except.ok env) :
    ((env.encoding = "base64") ↔ (env.format = "gpkg" ∨ env.format = "shapefile")) ∧
    ((env.encoding = "utf-8") ↔ (env.format = "geojson" ∨ env.format = "kml")) := by
  simp only [dump_geodata] at h
  split at h
  · simp at h
  · split at h
    · simp at h
    · split at h
      · injection h with he
        subst he
        exact ⟨by simp, by simp⟩
      · split at h
        · injection h with he
          subst he
          exact ⟨by simp, by simp⟩
        · split at h
          · injection h with he
            subst he
            exact ⟨by simp, by simp⟩
          · split at h
            · injection h with he
              subst he
              exact ⟨by simp, by simp⟩
            · simp at h

/-- Witness for C8 at a concrete one-row collection dumped with the default
format. -/
theorem C8_witness :
    ((({ format := "geojson", encoding := "utf-8", crs := some "EPSG:4326",
         data := PayloadRepr.geojsonOf parsedOne } : Envelope).encoding = "base64") ↔
        (({ format := "geojson", encoding := "utf-8", crs := some "EPSG:4326",
            data := PayloadRepr.geojsonOf parsedOne } : Envelope).format = "gpkg" ∨
         ({ format := "geojson", encoding := "utf-8", crs := some "EPSG:4326",
            data := PayloadRepr.geojsonOf parsedOne } : Envelope).format = "shapefile")) ∧
    ((({ format := "geojson", encoding := "utf-8", crs := some "EPSG:4326",
         data := PayloadRepr.geojsonOf parsedOne } : Envelope).encoding = "utf-8") ↔
        (({ format := "geojson", encoding := "utf-8", crs := some "EPSG:4326",
            data := PayloadRepr.geojsonOf parsedOne } : Envelope).format = "geojson" ∨
         ({ format := "geojson", encoding := "utf-8", crs := some "EPSG:4326",
            data := PayloadRepr.geojsonOf parsedOne } : Envelope).format = "kml")) :=
  C8_dump_encoding_invariant parsedOne none _ (by decide)

/-! ## C9: the post-load invariant of `load_geodata` -/

/-- C9 (confirmed): whenever `load_geodata` returns a collection, it is
non-empty, free of null geometries, and is exactly the parse result with its
null-geometry rows dropped; and whenever the parse result has no row with a
geometry (for a supported format and present payload), `load_geodata` fails
with an `EmptyResult`-kind error instead of returning. -/
theorem C9_load_invariant (data : Option String) (fmt : String)
    (parsed : GeoDataFrame) (scrs : Option String) :
    (∀ g, load_geodata data fmt parsed scrs = Except.ok g →
        ¬ g.rows = [] ∧ (∀ r ∈ g.rows, r.geometry.isSome = true) ∧
        g.rows = parsed.rows.filter (fun r => r.geometry.isSome)) ∧
    (∀ f, normalize_format fmt = Except.ok f → ¬ data = none →
        parsed.rows.filter (fun r => r.geometry.isSome) = [] →
        ∃ e, load_geodata data fmt parsed scrs = Except.error e ∧
             GeoErr.isEmptyKind e = true) := by
  constructor
  · intro g hg
    simp only [load_geodata] at hg
    split at hg
    · simp at hg
    · split at hg
      · simp at hg
      · split at hg
        · simp at hg
        · split at hg
          · simp at hg
          · split at hg
            · injection hg with he
              subst he
              refine ⟨by assumption, ?_, rfl⟩
              intro r hr
              exact (List.mem_filter.mp hr).2
            · injection hg with he
              subst he
              refine ⟨by assumption, ?_, rfl⟩
              intro r hr
              exact (List.mem_filter.mp hr).2
  · intro f hf hd hfe
    rcases hp : parsed.rows with _ | ⟨r0, rest⟩
    · refine ⟨GeoErr.emptyFile, ?_, rfl⟩
      simp [load_geodata, hf, hd, hp]
    · refine ⟨GeoErr.allNullGeometries, ?_, rfl⟩
      rw [hp] at hfe
      simp [load_geodata, hf, hd, hp, hfe]

/-- Witness for C9 at a concrete loadable input. -/
theorem C9_witness :
    ¬ parsedOne.rows = [] ∧ (∀ r ∈ parsedOne.rows, r.geometry.isSome = true) ∧
    parsedOne.rows = parsedOne.rows.filter (fun r => r.geometry.isSome) :=
  (C9_load_invariant (some "d") "geojson" parsedOne none).1 parsedOne (by decide)

/-! ## C5: expiry arithmetic of `cache_response` and immediate `get` -/

/-- C5 counterexample: `created_at` and `expires_at` come from two separate
clock reads; with the second read one instant later, the stored metadata has
`expires_at - created_at = 24h + 1`, not exactly 24h. -/
theorem C5_counterexample :
    (List.lookup (cache_response emptyCacheState () "tool" "h" 0 0 0 0 1 1).2.cache_id
        (cache_response emptyCacheState () "tool" "h" 0 0 0 0 1 1).1.metaFiles).map
      (fun mf => mf.content.expires_at - mf.content.created_at) ≠
    some CACHE_TTL_SECONDS := by
  decide

/-- C5 (amended): the stored metadata satisfies
`expires_at - created_at = 24h + (t5 - t4)` where `t4 ≤ t5` are the two
successive `datetime.now()` reads (so it equals 24h exactly iff the clock did
not advance between them), and a `get_cached_data` at any instant up to
`expires_at` returns non-null. -/
theorem C5_put_expiry_and_get {β : Type} (st : CacheState β) (data : β)
    (tool h8 : String) (t1 t2 t3 t4 t5 t6 : Nat) (hc : t4 ≤ t5) :
    ((List.lookup (cache_response st data tool h8 t1 t2 t3 t4 t5 t6).2.cache_id
        (cache_response st data tool h8 t1 t2 t3 t4 t5 t6).1.metaFiles).map
      (fun mf => mf.content.expires_at - mf.content.created_at) =
      some (CACHE_TTL_SECONDS + (t5 - t4))) ∧
    (CACHE_TTL_SECONDS + (t5 - t4) = CACHE_TTL_SECONDS ↔ t5 = t4) ∧
    (∀ tGet flag, tGet ≤ t5 + CACHE_TTL_SECONDS →
        ¬ (get_cached_data (cache_response st data tool h8 t1 t2 t3 t4 t5 t6).1 tGet
            (cache_response st data tool h8 t1 t2 t3 t4 t5 t6).2.cache_id flag).1 = none) := by
  refine ⟨?_, by constructor <;> intro h <;> omega, ?_⟩
  · simp [cache_response, lookup_setFile_self]
    omega
  · intro tGet flag hle
    simp only [cache_response, get_cached_data, lookup_setFile_self]
    have hnot : ¬ t5 + CACHE_TTL_SECONDS < tGet := by omega
    simp [hnot]

/-- Witness for C5's amended rule: with both clock reads at instant 5, the
stored lifetime is exactly the TTL. -/
theorem C5_witness :
    (List.lookup (cache_response emptyCacheState () "tool" "h" 0 0 0 5 5 5).2.cache_id
        (cache_response emptyCacheState () "tool" "h" 0 0 0 5 5 5).1.metaFiles).map
      (fun mf => mf.content.expires_at - mf.content.created_at) =
      some (CACHE_TTL_SECONDS + (5 - 5)) :=
  (C5_put_expiry_and_get emptyCacheState () "tool" "h" 0 0 0 5 5 5 (by decide)).1

/-! ## C6: behaviour of `get_cached_data` -/

/-- C6 counterexample: at the concrete state `c6State` (expired metadata,
data file already absent), the lookup returns null but the metadata file is
NOT deleted — the data file's failed `unlink` aborts the `try` block before
the metadata `unlink` runs.  This falsifies the claim's "deletes both the
data file and the metadata file". -/
theorem C6_counterexample :
    ((get_cached_data c6State 20 "x" false).1 = none) ∧
    ((List.lookup "x" c6State.metaFiles).map
        (fun mf => decide (mf.content.expires_at < 20)) = some true) ∧
    ¬ (List.lookup "x" (get_cached_data c6State 20 "x" false).2.metaFiles = none) := by
  decide

/-- C6 (amended): `get_cached_data` returns null iff the metadata is absent
or expired; on an expired entry it deletes both files when the data file
exists, and leaves the state unchanged (metadata file included) when the data
file is already gone; a non-null result is exactly the stored metadata plus
the `include_full_data` warning flag, and the inline result is a function of
the metadata directory alone — it never depends on the stored payload. -/
theorem C6_get_behaviour {β : Type} (st : CacheState β) (now : Nat) (cid : String)
    (flag : Bool) :
    (((get_cached_data st now cid flag).1 = none) ↔
        (match List.lookup cid st.metaFiles with
         | none => True
         | some mf => mf.content.expires_at < now)) ∧
    (∀ mf, List.lookup cid st.metaFiles = some mf → mf.content.expires_at < now →
        ((List.lookup cid st.dataFiles).isSome = true →
            (get_cached_data st now cid flag).2.dataFiles = removeFile st.dataFiles cid ∧
            (get_cached_data st now cid flag).2.metaFiles = removeFile st.metaFiles cid) ∧
        (List.lookup cid st.dataFiles = none →
            (get_cached_data st now cid flag).2 = st)) ∧
    (∀ r, (get_cached_data st now cid flag).1 = some r →
        ∃ mf, List.lookup cid st.metaFiles = some mf ∧
              r.meta = mf.content ∧ r.warning = flag) ∧
    (∀ st2 : CacheState β, st2.metaFiles = st.metaFiles →
        (get_cached_data st2 now cid flag).1 = (get_cached_data st now cid flag).1) := by
  refine ⟨?_, ?_, ?_, ?_⟩
  · rcases hm : List.lookup cid st.metaFiles with _ | mf
    · simp [get_cached_data, hm]
    · simp only [get_cached_data, hm]
      by_cases hex : mf.content.expires_at < now
      · simp only [if_pos hex]
        rcases hd : (List.lookup cid st.dataFiles).isSome <;> simp [hd, hex]
      · simp [if_neg hex, hex]
  · intro mf hm hex
    constructor
    · intro hd
      simp [get_cached_data, hm, if_pos hex, hd]
    · intro hd
      simp [get_cached_data, hm, if_pos hex, hd]
  · intro r hr
    rcases hm : List.lookup cid st.metaFiles with _ | mf
    · simp [get_cached_data, hm] at hr
    · refine ⟨mf, rfl, ?_⟩
      simp only [get_cached_data, hm] at hr
      by_cases hex : mf.content.expires_at < now
      · rcases hd : (List.lookup cid st.dataFiles).isSome <;>
          simp [if_pos hex, hd] at hr
      · simp only [if_neg hex] at hr
        injection hr with he
        subst he
        exact ⟨rfl, rfl⟩
  · intro st2 h2
    rcases hm : List.lookup cid st.metaFiles with _ | mf
    · simp [get_cached_data, h2, hm]
    · simp only [get_cached_data, h2, hm]
      by_cases hex : mf.content.expires_at < now
      · simp only [if_pos hex]
        rcases hd : (List.lookup cid st.dataFiles).isSome <;>
          rcases hd2 : (List.lookup cid st2.dataFiles).isSome <;>
            simp [hd, hd2]
      · simp [if_neg hex]

/-- Witness for C6's amended rule: on `c3State` (expired entry with both
files present), the lookup deletes both files. -/
theorem C6_witness :
    (get_cached_data c3State 20 "id1" false).2.dataFiles =
        removeFile c3State.dataFiles "id1" ∧
    (get_cached_data c3State 20 "id1" false).2.metaFiles =
        removeFile c3State.metaFiles "id1" :=
  ((C6_get_behaviour c3State 20 "id1" false).2.1
      ⟨0, { cache_id := "id1", tool_name := "t", created_at := 0, expires_at := 10 }⟩
      (by decide) (by decide)).1 (by decide)

/-! ## C7: the `should_cache_response` decision rule -/

set_option maxRecDepth 4000 in
/-- C7 counterexample: a genuine feature collection of 51 (tiny) features
under a tool name other than `get_wfs_features` is NOT cached by the code
(its serialization is far below 10 KiB), although the claim's rule — which
does not gate the feature-count test on the tool name — says it must be. -/
theorem C7_counterexample :
    should_cache_response c7Data "other_tool" = some false ∧
    shouldCacheClaimC7 c7Data "other_tool" := by
  constructor
  · decide
  · exact Or.inr (Or.inl (by decide))

/-- C7 (amended): on every input where the code returns (no `TypeError`),
`should_cache_response` returns true exactly when the tool is one of the
three always-cache operations, or the tool is `get_wfs_features` and the
response's `features` count exceeds 50, or the serialized JSON size exceeds
10 KiB. -/
theorem C7_should_cache_rule (data : Json) (tool : String)
    (hok : ¬ should_cache_response data tool = none) :
    (should_cache_response data tool = some true ↔
      (tool ∈ ["calculate_route", "calculate_isochrone", "get_elevation_line"]
       ∨ (tool = "get_wfs_features" ∧ ∃ n, wfsFeaturesLen data = some n ∧ 50 < n)
       ∨ 10 * 1024 < (jsonDumps data).length)) := by
  by_cases hmem : tool ∈ ["calculate_route", "calculate_isochrone", "get_elevation_line"]
  · simp [should_cache_response, hmem]
  · by_cases hwfs : tool = "get_wfs_features"
    · rcases hn : wfsFeaturesLen data with _ | n
      · exact absurd (by simp [should_cache_response, hmem, hwfs, hn]) hok
      · by_cases h50 : 50 < n
        · simp [should_cache_response, hmem, hwfs, hn, h50]
        · simp [should_cache_response, hmem, hwfs, hn, h50]
    · simp [should_cache_response, hmem, hwfs]

/-- Witness for C7's amended rule: the same 51-feature collection under the
`get_wfs_features` tool IS cached. -/
theorem C7_witness : should_cache_response c7Data "get_wfs_features" = some true :=
  (C7_should_cache_rule c7Data "get_wfs_features" (by decide)).mpr
    (Or.inr (Or.inl ⟨rfl, 51, by decide, by decide⟩))

/-! ## Arithmetic and list helpers for the sampler (C1, C10) -/

theorem stepIdx_lt_succ (t m i : Nat) (hm : 0 < m) (ht : m < t) :
    i * t / m < (i + 1) * t / m := by
  have h1 : i * t / m + 1 ≤ (i + 1) * t / m := by
    rw [Nat.le_div_iff_mul_le hm]
    have h2 : i * t / m * m ≤ i * t := Nat.div_mul_le_self _ _
    calc (i * t / m + 1) * m = i * t / m * m + m := by ring
      _ ≤ i * t + m := by omega
      _ ≤ i * t + t := by omega
      _ = (i + 1) * t := by ring
  omega

theorem stepIdx_mono (t m i j : Nat) (hij : i ≤ j) : i * t / m ≤ j * t / m :=
  Nat.div_le_div_right (Nat.mul_le_mul_right t hij)

theorem stepIdx_last_lt (t m : Nat) (hm : 2 ≤ m) (ht : m < t) :
    (m - 2) * t / m < t - 1 := by
  rw [Nat.div_lt_iff_lt_mul (by omega : 0 < m)]
  obtain ⟨a, rfl⟩ : ∃ a, m = a + 2 := ⟨m - 2, by omega⟩
  obtain ⟨b, rfl⟩ : ∃ b, t = b + 1 := ⟨t - 1, by omega⟩
  simp only [Nat.add_sub_cancel]
  have h4 : a < 2 * b := by omega
  calc a * (b + 1) = a * b + a := by ring
    _ < a * b + 2 * b := Nat.add_lt_add_left h4 _
    _ = b * (a + 2) := by ring

theorem chain_lt_map_range' (f : Nat → Nat) (hf : ∀ i, f i < f (i + 1)) :
    ∀ s n, List.Chain' (fun a b => a < b) ((List.range' s n).map f) := by
  intro s n
  induction n generalizing s with
  | zero => simp
  | succ k ih =>
    rw [show List.range' s (k + 1) = s :: List.range' (s + 1) k from rfl, List.map_cons]
    refine List.chain'_cons'.mpr ⟨?_, ih (s + 1)⟩
    intro y hy
    cases k with
    | zero => simp at hy
    | succ k2 =>
      rw [show List.range' (s + 1) (k2 + 1) = (s + 1) :: List.range' (s + 2) k2 from rfl,
          List.map_cons] at hy
      simp only [List.head?_cons, Option.mem_def, Option.some.injEq] at hy
      exact hy ▸ hf s

theorem head?_eq_getD {α : Type} [Inhabited α] (l : List α) (h : ¬ l = []) :
    l.head? = some (l.getD 0 default) := by
  cases l with
  | nil => exact absurd rfl h
  | cons a as => rfl

theorem getLast?_eq_getD {α : Type} [Inhabited α] (l : List α) (h : ¬ l = []) :
    l.getLast? = some (l.getD (l.length - 1) default) := by
  have hlt : l.length - 1 < l.length := by
    cases l with
    | nil => exact absurd rfl h
    | cons a as => simp
  rw [List.getLast?_eq_getElem?, List.getElem?_eq_getElem hlt, List.getD_eq_getElem _ _ hlt]

theorem sampleIndicesLine_length (t m : Nat) (hm : 2 ≤ m) :
    (sampleIndicesLine t m).length = m := by
  simp [sampleIndicesLine]
  omega

theorem sampleIndicesLine_chain (t m : Nat) (hm : 2 ≤ m) (ht : m < t) :
    List.Chain' (fun a b => a < b) (sampleIndicesLine t m) := by
  have hm0 : 0 < m := by omega
  have hf : ∀ i, i * t / m < (i + 1) * t / m := fun i => stepIdx_lt_succ t m i hm0 ht
  show List.Chain' (fun a b => a < b)
    (0 :: ((List.range' 1 (m - 2)).map (fun i => i * t / m) ++ [t - 1]))
  refine List.chain'_cons'.mpr ⟨?_, ?_⟩
  · intro y hy
    have hmem := List.mem_of_mem_head? hy
    rcases List.mem_append.mp hmem with hmid | hlast
    · rcases List.mem_map.mp hmid with ⟨i, hi, rfl⟩
      have hi1 : 1 ≤ i := (List.mem_range'_1.mp hi).1
      have hge : t / m ≤ i * t / m := by
        apply Nat.div_le_div_right
        calc t = 1 * t := (one_mul t).symm
          _ ≤ i * t := Nat.mul_le_mul_right t hi1
      have h1 : 1 ≤ t / m := (Nat.one_le_div_iff hm0).mpr (le_of_lt ht)
      omega
    · have : y = t - 1 := by simpa using hlast
      omega
  · refine List.chain'_append.mpr
      ⟨chain_lt_map_range' (fun i => i * t / m) hf 1 (m - 2),
       List.chain'_singleton _, ?_⟩
    intro x hx y hy
    have hy2 : t - 1 = y := by simpa using hy
    have hx2 := List.mem_of_mem_getLast? hx
    rcases List.mem_map.mp hx2 with ⟨i, hi, rfl⟩
    have hi2 : i ≤ m - 2 := by
      have := (List.mem_range'_1.mp hi).2
      omega
    have hle : i * t / m ≤ (m - 2) * t / m := stepIdx_mono t m i (m - 2) hi2
    have hlt := stepIdx_last_lt t m hm ht
    omega

theorem sampleIndicesLine_mem_lt (t m : Nat) (hm : 2 ≤ m) (ht : m < t) :
    ∀ i ∈ sampleIndicesLine t m, i < t := by
  intro i hi
  unfold sampleIndicesLine at hi
  rcases List.mem_append.mp hi with h1 | h2
  · rcases List.mem_append.mp h1 with h0 | hmid
    · have : i = 0 := by simpa using h0
      omega
    · rcases List.mem_map.mp hmid with ⟨j, hj, rfl⟩
      have hj2 : j ≤ m - 2 := by
        have := (List.mem_range'_1.mp hj).2
        omega
      have hle := stepIdx_mono t m j (m - 2) hj2
      have hlt := stepIdx_last_lt t m hm ht
      omega
  · have : i = t - 1 := by simpa using h2
    omega

theorem sampleIndicesLine_head? (t m : Nat) :
    (sampleIndicesLine t m).head? = some 0 := rfl

theorem sampleIndicesRing_length (t m : Nat) : (sampleIndicesRing t m).length = m := by
  simp [sampleIndicesRing]

theorem sampleIndicesRing_head? (t m : Nat) (hm : 1 ≤ m) :
    (sampleIndicesRing t m).head? = some 0 := by
  unfold sampleIndicesRing
  obtain ⟨k, rfl⟩ : ∃ k, m = k + 1 := ⟨m - 1, by omega⟩
  rw [List.range_succ_eq_map, List.map_cons]
  simp

/-! ## C1: the sampler's contract for LineString and Polygon -/

/-- C1 counterexample: for the Polygon outer ring `[0,1,2,3,4]` with
`max_points = 2` (so `N = 5 > 2`), the returned ring is `[0, 2]`: its last
coordinate is `2`, not the original last point `4` — the Polygon branch
indices are `int(i*step)` for `i in range(max_points)` and never include
`N-1`. -/
theorem C1_counterexample :
    ¬ ((polygonSampleOuter [0, 1, 2, 3, 4] 2).getLast? =
        ([0, 1, 2, 3, 4] : List Nat).getLast?) := by
  decide

/-- C1 (amended): for LineString the claim holds as stated (all points and
`sampled = false` when `N ≤ max_points`; otherwise exactly `max_points`
coordinates at indices `0, int(1*step), …, N-1`, first and last preserved,
`sampled = true`).  For the Polygon outer ring the small-`N` half holds, but
when `N > max_points` the indices are `int(i*step)` for
`i = 0 … max_points-1`: the count is exactly `max_points`, the first
coordinate is preserved and `sampled = true`, yet the index `N-1` is not
selected, so the last original point is in general not returned. -/
theorem C1_sampler_rule {α : Type} [Inhabited α] (mp : Nat) (hmp : 2 ≤ mp) :
    (∀ coords : List α, coords.length ≤ mp →
        extract_geometry_coordinates (some (Geometry.lineString coords)) mp =
          some { geometry_type := some "LineString", total_points := some coords.length,
                 coordinates := some (CoordsOut.line coords), sampled := some false,
                 polygons_count := none }) ∧
    (∀ coords : List α, mp < coords.length →
        extract_geometry_coordinates (some (Geometry.lineString coords)) mp =
          some { geometry_type := some "LineString", total_points := some coords.length,
                 coordinates := some (CoordsOut.line ((sampleIndicesLine coords.length mp).map
                     (fun i => coords.getD i default))),
                 sampled := some true, polygons_count := none } ∧
        ((sampleIndicesLine coords.length mp).map (fun i => coords.getD i default)).length
            = mp ∧
        ((sampleIndicesLine coords.length mp).map (fun i => coords.getD i default)).head?
            = coords.head? ∧
        ((sampleIndicesLine coords.length mp).map (fun i => coords.getD i default)).getLast?
            = coords.getLast?) ∧
    (∀ (ring : List α) (rest : List (List α)), ring.length ≤ mp →
        extract_geometry_coordinates (some (Geometry.polygon (ring :: rest))) mp =
          some { geometry_type := some "Polygon", total_points := some ring.length,
                 coordinates := some (CoordsOut.rings [ring]), sampled := some false,
                 polygons_count := none }) ∧
    (∀ (ring : List α) (rest : List (List α)), mp < ring.length →
        extract_geometry_coordinates (some (Geometry.polygon (ring :: rest))) mp =
          some { geometry_type := some "Polygon", total_points := some ring.length,
                 coordinates := some (CoordsOut.rings [(sampleIndicesRing ring.length mp).map
                     (fun i => ring.getD i default)]),
                 sampled := some true, polygons_count := none } ∧
        ((sampleIndicesRing ring.length mp).map (fun i => ring.getD i default)).length = mp ∧
        ((sampleIndicesRing ring.length mp).map (fun i => ring.getD i default)).head?
            = ring.head?) := by
  refine ⟨?_, ?_, ?_, ?_⟩
  · intro coords hle
    simp [extract_geometry_coordinates, hle]
  · intro coords hgt
    have hnot : ¬ coords.length ≤ mp := by omega
    have hne : ¬ coords = [] := by
      intro h0
      rw [h0] at hgt
      simp at hgt
    refine ⟨by simp [extract_geometry_coordinates, hnot], ?_, ?_, ?_⟩
    · rw [List.length_map, sampleIndicesLine_length coords.length mp hmp]
    · simp [List.head?_map, sampleIndicesLine_head?, head?_eq_getD coords hne]
    · rw [getLast?_eq_getD coords hne]
      simp only [sampleIndicesLine, List.map_append, List.map_cons, List.map_nil]
      rw [List.getLast?_concat]
  · intro ring rest hle
    simp [extract_geometry_coordinates, hle]
  · intro ring rest hgt
    have hnot : ¬ ring.length ≤ mp := by omega
    have hne : ¬ ring = [] := by
      intro h0
      rw [h0] at hgt
      simp at hgt
    refine ⟨by simp [extract_geometry_coordinates, hnot], ?_, ?_⟩
    · rw [List.length_map, sampleIndicesRing_length]
    · simp [List.head?_map, sampleIndicesRing_head? ring.length mp (by omega),
            head?_eq_getD ring hne]

/-- Witness for C1's amended rule: a 5-point LineString sampled to 3 points
keeps its first and last coordinates. -/
theorem C1_witness :
    extract_geometry_coordinates
        (some (Geometry.lineString ([10, 20, 30, 40, 50] : List Nat))) 3 =
      some { geometry_type := some "LineString", total_points := some 5,
             coordinates := some (CoordsOut.line [10, 20, 50]), sampled := some true,
             polygons_count := none } :=
  ((C1_sampler_rule 3 (by decide)).2.1 [10, 20, 30, 40, 50] (by decide)).1

/-! ## C10: the LineString index sequence is strictly increasing -/

/-- C10 (confirmed): for `N > max_points ≥ 2` the LineString index sequence
`[0] ++ [int(i*step) for i in 1 .. max_points-2] ++ [N-1]` is strictly
increasing, all its members are in range, its length is exactly `max_points`,
and therefore the coordinate list the sampler returns has length exactly
`max_points`. -/
theorem C10_line_indices (t mp : Nat) (hmp : 2 ≤ mp) (ht : mp < t) :
    List.Chain' (fun a b => a < b) (sampleIndicesLine t mp) ∧
    (∀ i ∈ sampleIndicesLine t mp, i < t) ∧
    (sampleIndicesLine t mp).length = mp ∧
    (∀ coords : List Nat, coords.length = t →
        ∃ out, extract_geometry_coordinates (some (Geometry.lineString coords)) mp =
            some { geometry_type := some "LineString", total_points := some t,
                   coordinates := some (CoordsOut.line out), sampled := some true,
                   polygons_count := none } ∧ out.length = mp) := by
  refine ⟨sampleIndicesLine_chain t mp hmp ht, sampleIndicesLine_mem_lt t mp hmp ht,
          sampleIndicesLine_length t mp hmp, ?_⟩
  intro coords hlen
  refine ⟨(sampleIndicesLine t mp).map (fun i => coords.getD i default), ?_, ?_⟩
  · have hnot : ¬ coords.length ≤ mp := by omega
    simp [extract_geometry_coordinates, hnot, hlen]
    omega
  · rw [List.length_map, sampleIndicesLine_length t mp hmp]

/-- Witness for C10 at `N = 7`, `max_points = 3`. -/
theorem C10_witness :
    List.Chain' (fun a b => a < b) (sampleIndicesLine 7 3) ∧
    (sampleIndicesLine 7 3).length = 3 :=
  ⟨(C10_line_indices 7 3 (by decide) (by decide)).1,
   (C10_line_indices 7 3 (by decide) (by decide)).2.2.1⟩
